import Mathlib

/-!
Shallow embedding of the testable core of the go-sample-app collection
package (files `collection/http_traces.go` and `collection/request_metrics.go`):
the synthetic metric generator (time-alive counter, cpu-usage and heap-size
observable samplers, active-thread oscillator) and the request-based metric
collector, together with the registration error-handling control flow.

Machine integers: Go `int64` arithmetic is modelled on `Int` with an explicit
two's-complement wrap `wrap64` wherever overflow is reachable; where the source
guards the value away from the `int64` boundary (the oscillator count, which is
trapped between `-1` and the configured bound) plain `Int` is used and the
justification is noted at the definition.

Randomness: Go's `rand.Intn n` panics for `n ≤ 0` and otherwise returns a
uniform value in `[0, n)`.  It is modelled as a function of an arbitrary draw
`r : Int`, reduced modulo `n`; the panic branch is `none`.  Every value the Go
function can return is `r % n` for some `r`, and conversely.
-/

namespace GoSampleApp

/-- Two's-complement wrap of an integer into the `int64` range
`[-2^63, 2^63)`, modelling Go `int64` overflow. -/
def wrap64 (v : Int) : Int := (v + 2 ^ 63) % 2 ^ 64 - 2 ^ 63

/-- The configuration surface consumed by the collection package
(fields of `collection.Config` that the embedded code reads). -/
structure Config where
  TimeInterval : Int
  TimeAliveIncrementer : Int
  CpuUsageUpperBound : Int
  TotalHeapSizeUpperBound : Int
  ThreadsActiveUpperBound : Int
  SampleAppPorts : List String

/-- A configuration that sets only `ThreadsActiveUpperBound`, for concrete
oscillator scenarios. -/
def cfgUB (ub : Int) : Config :=
  { TimeInterval := 0, TimeAliveIncrementer := 0, CpuUsageUpperBound := 0,
    TotalHeapSizeUpperBound := 0, ThreadsActiveUpperBound := ub,
    SampleAppPorts := [] }

/-- A concrete configuration with time-alive incrementer 5 and interval 7,
for the time-alive scenario. -/
def cfgInc5 : Config :=
  { TimeInterval := 7, TimeAliveIncrementer := 5, CpuUsageUpperBound := 0,
    TotalHeapSizeUpperBound := 0, ThreadsActiveUpperBound := 0,
    SampleAppPorts := [] }

/-- A concrete configuration with cpu-usage bound 10 and heap-size bound 20,
for the sampler scenarios. -/
def cfgSamplers : Config :=
  { TimeInterval := 0, TimeAliveIncrementer := 0, CpuUsageUpperBound := 10,
    TotalHeapSizeUpperBound := 20, ThreadsActiveUpperBound := 0,
    SampleAppPorts := [] }

/-- The process-wide oscillator state of `http_traces.go`:
`var threadCount int64 = 0` and `var threadsBool = true`.
`threadCount` is `int64` in Go; it is modelled on `Int` without wrapping
because the code only increments it below the configured bound and only
decrements it above `0` (plus one step past each end on a flip), so it never
approaches the `int64` boundary for any Go-representable bound. -/
structure OscState where
  threadCount : Int
  threadsBool : Bool
deriving DecidableEq, Repr

/-- Initial oscillator state: `threadCount = 0`, `threadsBool = true`. -/
def oscInit : OscState := { threadCount := 0, threadsBool := true }

/-- `updateThreadsActive` from `http_traces.go`: one tick of the
active-thread oscillator.  Returns the new state together with the delta
passed to `rmc.threadsActive.Add` on this tick, if any (`none` when the
tick takes a flip branch, which calls no `Add`). -/
def updateThreadsActive (cfg : Config) (s : OscState) : OscState × Option Int :=
  if s.threadsBool then
    if s.threadCount < cfg.ThreadsActiveUpperBound then
      ({ threadCount := s.threadCount + 1, threadsBool := true }, some 1)
    else
      ({ threadCount := s.threadCount - 1, threadsBool := false }, none)
  else
    if s.threadCount > 0 then
      ({ threadCount := s.threadCount - 1, threadsBool := false }, some (-1))
    else
      ({ threadCount := s.threadCount + 1, threadsBool := true }, none)

/-- The oscillator state after `n` ticks from the initial state. -/
def oscTicks (cfg : Config) : Nat → OscState
  | 0 => oscInit
  | n + 1 => (updateThreadsActive cfg (oscTicks cfg n)).1

/-- Go `rand.Intn n` on `int64`-sized values: panics (modelled `none`) for
`n ≤ 0`; otherwise returns a uniform value in `[0, n)`, modelled as `r % n`
for an arbitrary draw `r`. -/
def randIntn (n : Int) (r : Int) : Option Int :=
  if n ≤ 0 then none else some (r % n)

/-- Body of the observer callback registered by `updateCpuUsage` in
`http_traces.go`: `min := 0; max := int(cfg.CpuUsageUpperBound);
rand.Intn(max-min) + min`. -/
def cpuUsageCallback (cfg : Config) (r : Int) : Option Int :=
  let min : Int := 0
  let max : Int := cfg.CpuUsageUpperBound
  (randIntn (max - min) r).map (fun v => v + min)

/-- Body of the observer callback registered by `updateTotalHeapSize` in
`http_traces.go`: `min := 0; max := int(cfg.TotalHeapSizeUpperBound);
rand.Intn(max-min) + min`. -/
def totalHeapSizeCallback (cfg : Config) (r : Int) : Option Int :=
  let min : Int := 0
  let max : Int := cfg.TotalHeapSizeUpperBound
  (randIntn (max - min) r).map (fun v => v + min)

/-- The value `UpdateTotalBytesSent` in `request_metrics.go` passes to
`totalBytesSent.Add`: `min := 0; max := 1024; rand.Intn(max-min) + min`. -/
def updateTotalBytesSentValue (r : Int) : Option Int :=
  let min : Int := 0
  let max : Int := 1024
  (randIntn (max - min) r).map (fun v => v + min)

/-- The value `UpdateLatencyTime` in `request_metrics.go` passes to
`latencyTime.Record`: `min := 0; max := 512; rand.Intn(max-min) + min`. -/
def updateLatencyTimeValue (r : Int) : Option Int :=
  let min : Int := 0
  let max : Int := 512
  (randIntn (max - min) r).map (fun v => v + min)

/-- `updateTimeAlive` from `http_traces.go`: adds
`cfg.TimeAliveIncrementer * 1000` (an `int64` product) to the time-alive
counter.  `timeAlive` is the counter's accumulated value. -/
def updateTimeAlive (cfg : Config) (timeAlive : Int) : Int :=
  timeAlive + wrap64 (cfg.TimeAliveIncrementer * 1000)

/-- Outcome of a registration step on the error path: the error is either
absent, logged with execution continuing (`slog.Error`), or escalated to a
process abort (Go `panic`). -/
inductive RegOutcome where
  | ok
  | loggedError
  | panicked
deriving DecidableEq, Repr

/-- `registerTimeAlive` error handling: `slog.Error` and continue. -/
def registerTimeAlive (fail : Bool) : RegOutcome :=
  if fail then RegOutcome.loggedError else RegOutcome.ok

/-- `registerCpuUsage` error handling: `slog.Error` and continue. -/
def registerCpuUsage (fail : Bool) : RegOutcome :=
  if fail then RegOutcome.loggedError else RegOutcome.ok

/-- `registerHeapSize` error handling: `slog.Error` and continue. -/
def registerHeapSize (fail : Bool) : RegOutcome :=
  if fail then RegOutcome.loggedError else RegOutcome.ok

/-- `registerThreadsActive` error handling: `slog.Error` and continue. -/
def registerThreadsActive (fail : Bool) : RegOutcome :=
  if fail then RegOutcome.loggedError else RegOutcome.ok

/-- `registerTotalBytesSent` error handling: `slog.Error` and continue. -/
def registerTotalBytesSent (fail : Bool) : RegOutcome :=
  if fail then RegOutcome.loggedError else RegOutcome.ok

/-- `registerTotalRequests` error handling: `slog.Error` and continue. -/
def registerTotalRequests (fail : Bool) : RegOutcome :=
  if fail then RegOutcome.loggedError else RegOutcome.ok

/-- `registerLatencyTime` error handling: `slog.Error` and continue. -/
def registerLatencyTime (fail : Bool) : RegOutcome :=
  if fail then RegOutcome.loggedError else RegOutcome.ok

/-- `updateCpuUsage` callback-registration error handling in
`http_traces.go`: `RegisterCallback` failure is `panic(err)`. -/
def updateCpuUsage (fail : Bool) : RegOutcome :=
  if fail then RegOutcome.panicked else RegOutcome.ok

/-- `updateTotalHeapSize` callback-registration error handling in
`http_traces.go`: `RegisterCallback` failure is `panic(err)`. -/
def updateTotalHeapSize (fail : Bool) : RegOutcome :=
  if fail then RegOutcome.panicked else RegOutcome.ok

/-- `StartTotalRequestCallback` callback-registration error handling in
`request_metrics.go`: `RegisterCallback` failure is `panic(err)`. -/
def StartTotalRequestCallback (fail : Bool) : RegOutcome :=
  if fail then RegOutcome.panicked else RegOutcome.ok

/-- In-memory state of `requestBasedMetricCollector` from
`request_metrics.go`: the atomic `counter` (`int64`), the accumulated
`totalBytesSent` counter value and the recorded latency samples.  The
reporting sink's accumulation of bytes and latency is kept abstractly as an
integer total and a list of samples. -/
structure RequestBasedMetricCollector where
  counter : Int
  totalBytesSent : Int
  latencyTime : List Int
deriving DecidableEq, Repr

/-- `NewRequestBasedMetricCollector`: fresh collector, all totals zero. -/
def NewRequestBasedMetricCollector : RequestBasedMetricCollector :=
  { counter := 0, totalBytesSent := 0, latencyTime := [] }

/-- `AddApiRequest`: `atomic.AddInt64(&rqmc.counter, 1)` (an `int64`
increment, hence wrapped). -/
def AddApiRequest (s : RequestBasedMetricCollector) : RequestBasedMetricCollector :=
  { s with counter := wrap64 (s.counter + 1) }

/-- `GetApiRequest`: `int(atomic.LoadInt64(&rqmc.counter))`; the
`int64` to `int` conversion is the identity on 64-bit targets. -/
def GetApiRequest (s : RequestBasedMetricCollector) : Int :=
  s.counter

/-- One operation of the request-based metric collector; the random draw for
the two sampling operations is carried in the operation. -/
inductive RqmcOp where
  | addApiRequest
  | getApiRequest
  | updateTotalBytesSent (r : Int)
  | updateLatencyTime (r : Int)
deriving DecidableEq, Repr

/-- State effect of one collector operation.  `getApiRequest` only reads.
The sampling operations draw from `rand.Intn` with the positive literal
bounds 1024 and 512, so their `none` (panic) branch is unreachable and
`getD 0` is never exercised. -/
def applyOp (s : RequestBasedMetricCollector) : RqmcOp → RequestBasedMetricCollector
  | RqmcOp.addApiRequest => AddApiRequest s
  | RqmcOp.getApiRequest => s
  | RqmcOp.updateTotalBytesSent r =>
    { s with totalBytesSent := s.totalBytesSent + (updateTotalBytesSentValue r).getD 0 }
  | RqmcOp.updateLatencyTime r =>
    { s with latencyTime := (updateLatencyTimeValue r).getD 0 :: s.latencyTime }

/-- Run a sequence of collector operations from a given state. -/
def runOps (s : RequestBasedMetricCollector) : List RqmcOp → RequestBasedMetricCollector
  | [] => s
  | op :: rest => runOps (applyOp s op) rest

/-- Number of `addApiRequest` operations in a sequence. -/
def countAdds : List RqmcOp → Nat
  | [] => 0
  | RqmcOp.addApiRequest :: rest => countAdds rest + 1
  | _ :: rest => countAdds rest

end GoSampleApp

namespace GoSampleApp

theorem wrap64_eq_self (v : Int) (h0 : -(2 ^ 63) ≤ v) (h1 : v < 2 ^ 63) :
    wrap64 v = v := by
  unfold wrap64
  rw [Int.emod_eq_of_lt (by omega) (by omega)]
  omega

theorem countAdds_le_length (ops : List RqmcOp) : countAdds ops ≤ ops.length := by
  induction ops with
  | nil => simp [countAdds]
  | cons op rest ih =>
    cases op <;> simp [countAdds] <;> omega

theorem countAdds_take_mono (ops : List RqmcOp) (k : Nat) :
    countAdds (ops.take k) ≤ countAdds (ops.take (k + 1)) := by
  induction ops generalizing k with
  | nil => simp
  | cons op rest ih =>
    cases k with
    | zero =>
      cases op <;> simp [countAdds]
    | succ m =>
      have := ih m
      cases op <;> simp [countAdds, List.take] <;> omega

theorem countAdds_take_le (ops : List RqmcOp) (k : Nat) :
    countAdds (ops.take k) ≤ countAdds ops := by
  induction ops generalizing k with
  | nil => simp
  | cons op rest ih =>
    cases k with
    | zero =>
      cases op <;> simp [countAdds]
    | succ m =>
      have := ih m
      cases op <;> simp [countAdds, List.take] <;> omega

theorem runOps_counter (ops : List RqmcOp) :
    ∀ s : RequestBasedMetricCollector, 0 ≤ s.counter →
      s.counter + (countAdds ops : Int) < 2 ^ 63 →
      (runOps s ops).counter = s.counter + countAdds ops := by
  induction ops with
  | nil =>
    intro s h0 h1
    simp [runOps, countAdds]
  | cons op rest ih =>
    intro s h0 h1
    cases op with
    | addApiRequest =>
      have hca : countAdds (RqmcOp.addApiRequest :: rest) = countAdds rest + 1 := rfl
      rw [hca] at h1
      push_cast at h1
      have hw : (applyOp s RqmcOp.addApiRequest).counter = s.counter + 1 := by
        show wrap64 (s.counter + 1) = s.counter + 1
        exact wrap64_eq_self _ (by omega) (by omega)
      have := ih (applyOp s RqmcOp.addApiRequest) (by omega) (by rw [hw]; push_cast; omega)
      show (runOps (applyOp s RqmcOp.addApiRequest) rest).counter = _
      rw [this, hw, hca]
      push_cast
      ring
    | getApiRequest =>
      have : applyOp s RqmcOp.getApiRequest = s := rfl
      show (runOps (applyOp s RqmcOp.getApiRequest) rest).counter = _
      rw [this]
      exact ih s h0 h1
    | updateTotalBytesSent r =>
      have hc : (applyOp s (RqmcOp.updateTotalBytesSent r)).counter = s.counter := rfl
      show (runOps (applyOp s (RqmcOp.updateTotalBytesSent r)) rest).counter = _
      rw [ih _ (by rw [hc]; omega) (by rw [hc]; exact h1), hc]
      rfl
    | updateLatencyTime r =>
      have hc : (applyOp s (RqmcOp.updateLatencyTime r)).counter = s.counter := rfl
      show (runOps (applyOp s (RqmcOp.updateLatencyTime r)) rest).counter = _
      rw [ih _ (by rw [hc]; omega) (by rw [hc]; exact h1), hc]
      rfl

theorem countAdds_replicate_add (N : Nat) :
    countAdds (List.replicate N RqmcOp.addApiRequest) = N := by
  induction N with
  | zero => rfl
  | succ n ih => simp [List.replicate, countAdds, ih]

end GoSampleApp

namespace GoSampleApp

/-- Claim C1: with upperBound = 10, after exactly 10 ticks from
(count = 0, ascending = true) the direction flag is descending and the count
is 9.  False on the code: after 10 ticks the count is 10 and the direction is
still ascending (the flip happens on the 11th tick). -/
theorem c1_counterexample :
    ¬ ((oscTicks (cfgUB 10) 10).threadsBool = false
       ∧ (oscTicks (cfgUB 10) 10).threadCount = 9) := by
  decide

/-- Claim C1 (amended): with upperBound = 10, after 10 ticks the count is 10
and the direction is still ascending; the flip and the decrement occur on the
11th tick, after which the count is 9 and the direction is descending. -/
theorem c1_amended_ticks :
    oscTicks (cfgUB 10) 10 = { threadCount := 10, threadsBool := true }
    ∧ oscTicks (cfgUB 10) 11 = { threadCount := 9, threadsBool := false } := by
  decide

/-- Claim C2: on a tick with direction ascending and count = upperBound the
operation is claimed to emit a delta of -1 to the threadsActive signal.
False on the code: the flip branch calls no `Add` at all (and likewise the
descending flip at 0 emits nothing). -/
theorem c2_counterexample :
    ¬ ((updateThreadsActive (cfgUB 10)
          { threadCount := 10, threadsBool := true }).2 = some (-1))
    ∧ (updateThreadsActive (cfgUB 10)
          { threadCount := 10, threadsBool := true }).2 = none
    ∧ (updateThreadsActive (cfgUB 10)
          { threadCount := 0, threadsBool := false }).2 = none := by
  decide

/-- Claim C2 (amended): on a tick with direction ascending and
count = upperBound, the operation flips the direction to descending and
decrements the count by one but emits no delta to the threadsActive signal on
that tick; symmetrically, when descending at count 0 it flips to ascending and
increments the count, again emitting no delta. -/
theorem c2_amended_flip (cfg : Config) (c : Int)
    (hc : c = cfg.ThreadsActiveUpperBound) :
    updateThreadsActive cfg { threadCount := c, threadsBool := true }
      = ({ threadCount := c - 1, threadsBool := false }, none)
    ∧ updateThreadsActive cfg { threadCount := 0, threadsBool := false }
      = ({ threadCount := 1, threadsBool := true }, none) := by
  subst hc
  refine ⟨?_, ?_⟩
  · simp [updateThreadsActive]
  · simp [updateThreadsActive]

/-- Witness for `c2_amended_flip` at upperBound = 10, count = 10. -/
theorem c2_amended_flip_witness :
    (10 : Int) = (cfgUB 10).ThreadsActiveUpperBound
    ∧ (updateThreadsActive (cfgUB 10) { threadCount := 10, threadsBool := true }
        = ({ threadCount := 9, threadsBool := false }, none)
       ∧ updateThreadsActive (cfgUB 10) { threadCount := 0, threadsBool := false }
        = ({ threadCount := 1, threadsBool := true }, none)) := by
  refine ⟨by decide, ?_⟩
  have h := c2_amended_flip (cfgUB 10) 10 (by decide)
  simpa using h

/-- Claim C3: for every upperBound ≥ 0 the oscillator count stays in
[0, upperBound] after every tick.  False on the code at upperBound = 0: the
first tick takes the ascending flip branch and decrements the count to -1. -/
theorem c3_counterexample :
    (0 : Int) ≤ (cfgUB 0).ThreadsActiveUpperBound
    ∧ ¬ (0 ≤ (oscTicks (cfgUB 0) 1).threadCount
         ∧ (oscTicks (cfgUB 0) 1).threadCount ≤ (cfgUB 0).ThreadsActiveUpperBound) := by
  decide

/-- Claim C3 (amended): for every upperBound ≥ 1 and every number of ticks T,
starting from (count = 0, ascending = true), the oscillator count after T
ticks lies within [0, upperBound] inclusive. -/
theorem c3_amended_invariant (cfg : Config)
    (h : 1 ≤ cfg.ThreadsActiveUpperBound) (T : Nat) :
    0 ≤ (oscTicks cfg T).threadCount
    ∧ (oscTicks cfg T).threadCount ≤ cfg.ThreadsActiveUpperBound := by
  induction T with
  | zero =>
    constructor
    · simp [oscTicks, oscInit]
    · simp only [oscTicks, oscInit]
      omega
  | succ n ih =>
    obtain ⟨h0, h1⟩ := ih
    show 0 ≤ ((updateThreadsActive cfg (oscTicks cfg n)).1).threadCount
      ∧ ((updateThreadsActive cfg (oscTicks cfg n)).1).threadCount
        ≤ cfg.ThreadsActiveUpperBound
    by_cases hb : (oscTicks cfg n).threadsBool
    · by_cases hlt : (oscTicks cfg n).threadCount < cfg.ThreadsActiveUpperBound
      · simp [updateThreadsActive, hb, hlt]
        omega
      · simp [updateThreadsActive, hb, hlt]
        omega
    · by_cases hgt : (oscTicks cfg n).threadCount > 0
      · simp [updateThreadsActive, hb, hgt]
        omega
      · simp [updateThreadsActive, hb, hgt]
        omega

/-- Witness for `c3_amended_invariant` at upperBound = 10, T = 25. -/
theorem c3_amended_invariant_witness :
    1 ≤ (cfgUB 10).ThreadsActiveUpperBound
    ∧ (0 ≤ (oscTicks (cfgUB 10) 25).threadCount
       ∧ (oscTicks (cfgUB 10) 25).threadCount ≤ (cfgUB 10).ThreadsActiveUpperBound) :=
  ⟨by decide, c3_amended_invariant (cfgUB 10) (by decide) 25⟩

/-- Claim C4: registration failure is claimed to be logged-and-continue for
every signal except threadsActive, whose registration failure aborts the
process.  False on the code: `registerThreadsActive` logs and continues just
like the other register functions, while the `RegisterCallback` pathway of
`updateCpuUsage` (among others) panics. -/
theorem c4_counterexample :
    registerThreadsActive true ≠ RegOutcome.panicked
    ∧ registerThreadsActive true = RegOutcome.loggedError
    ∧ updateCpuUsage true = RegOutcome.panicked := by
  decide

/-- Claim C4 (amended): failure to create any of the seven instruments,
threadsActive included, is logged and the process continues with the signal
inert; it is the observable-callback registrations (`updateCpuUsage`,
`updateTotalHeapSize`, `StartTotalRequestCallback`) whose failure aborts the
process via panic. -/
theorem c4_amended_registration :
    registerTimeAlive true = RegOutcome.loggedError
    ∧ registerCpuUsage true = RegOutcome.loggedError
    ∧ registerHeapSize true = RegOutcome.loggedError
    ∧ registerThreadsActive true = RegOutcome.loggedError
    ∧ registerTotalBytesSent true = RegOutcome.loggedError
    ∧ registerTotalRequests true = RegOutcome.loggedError
    ∧ registerLatencyTime true = RegOutcome.loggedError
    ∧ updateCpuUsage true = RegOutcome.panicked
    ∧ updateTotalHeapSize true = RegOutcome.panicked
    ∧ StartTotalRequestCallback true = RegOutcome.panicked := by
  decide

/-- Claim C5: starting from a freshly constructed collector (counter = 0),
after N completed `AddApiRequest` calls, `GetApiRequest` returns exactly N
(for every N representable in the `int64` counter). -/
theorem c5_counter_exact (N : Nat) (h : (N : Int) < 2 ^ 63) :
    GetApiRequest (runOps NewRequestBasedMetricCollector
      (List.replicate N RqmcOp.addApiRequest)) = N := by
  have h0 : (0 : Int) ≤ NewRequestBasedMetricCollector.counter := by
    simp [NewRequestBasedMetricCollector]
  have hrun := runOps_counter (List.replicate N RqmcOp.addApiRequest)
    NewRequestBasedMetricCollector h0
    (by
      rw [countAdds_replicate_add]
      simpa [NewRequestBasedMetricCollector] using h)
  show (runOps NewRequestBasedMetricCollector _).counter = _
  rw [hrun, countAdds_replicate_add]
  simp [NewRequestBasedMetricCollector]

/-- Witness for `c5_counter_exact` at N = 3. -/
theorem c5_counter_exact_witness :
    ((3 : Nat) : Int) < 2 ^ 63
    ∧ GetApiRequest (runOps NewRequestBasedMetricCollector
        (List.replicate 3 RqmcOp.addApiRequest)) = 3 :=
  ⟨by decide, c5_counter_exact 3 (by decide)⟩

/-- Claim C6: one call to `updateTimeAlive` adds exactly
`TimeAliveIncrementer * 1000` milliseconds to the time-alive counter
(whenever the product fits in `int64`); with incrementer 5 it adds exactly
5000, and the configured interval is irrelevant to the value. -/
theorem c6_time_alive (cfg : Config) (t : Int)
    (hlo : -(2 ^ 63) ≤ cfg.TimeAliveIncrementer * 1000)
    (hhi : cfg.TimeAliveIncrementer * 1000 < 2 ^ 63) :
    updateTimeAlive cfg t = t + cfg.TimeAliveIncrementer * 1000
    ∧ (cfg.TimeAliveIncrementer = 5 → updateTimeAlive cfg t = t + 5000)
    ∧ updateTimeAlive { cfg with TimeInterval := 0 } t = updateTimeAlive cfg t := by
  have hw : wrap64 (cfg.TimeAliveIncrementer * 1000)
      = cfg.TimeAliveIncrementer * 1000 := wrap64_eq_self _ hlo hhi
  refine ⟨?_, ?_, rfl⟩
  · unfold updateTimeAlive
    rw [hw]
  · intro h5
    unfold updateTimeAlive
    rw [hw, h5]
    norm_num

/-- Witness for `c6_time_alive` with incrementer 5, interval 7, counter 0. -/
theorem c6_time_alive_witness :
    -(2 ^ 63) ≤ cfgInc5.TimeAliveIncrementer * 1000
    ∧ updateTimeAlive cfgInc5 0 = 0 + cfgInc5.TimeAliveIncrementer * 1000 :=
  ⟨by decide, (c6_time_alive cfgInc5 0 (by decide) (by decide)).1⟩

/-- Claim C7: under a valid sampling range (positive upper bound), every value
produced by the cpu-usage observer callback and by the heap-size observer
callback lies in the half-open interval [0, upperBound). -/
theorem c7_sampler_bounds (cfg : Config) (r1 r2 : Int)
    (hc : 0 < cfg.CpuUsageUpperBound) (hh : 0 < cfg.TotalHeapSizeUpperBound) :
    (∃ v, cpuUsageCallback cfg r1 = some v ∧ 0 ≤ v ∧ v < cfg.CpuUsageUpperBound)
    ∧ (∃ v, totalHeapSizeCallback cfg r2 = some v
        ∧ 0 ≤ v ∧ v < cfg.TotalHeapSizeUpperBound) := by
  constructor
  · refine ⟨r1 % cfg.CpuUsageUpperBound, ?_, ?_, ?_⟩
    · simp [cpuUsageCallback, randIntn]
      omega
    · exact Int.emod_nonneg r1 (by omega)
    · exact Int.emod_lt_of_pos r1 hc
  · refine ⟨r2 % cfg.TotalHeapSizeUpperBound, ?_, ?_, ?_⟩
    · simp [totalHeapSizeCallback, randIntn]
      omega
    · exact Int.emod_nonneg r2 (by omega)
    · exact Int.emod_lt_of_pos r2 hh

/-- Witness for `c7_sampler_bounds` at cpu bound 10, heap bound 20. -/
theorem c7_sampler_bounds_witness :
    0 < cfgSamplers.CpuUsageUpperBound
    ∧ ((∃ v, cpuUsageCallback cfgSamplers 7 = some v
        ∧ 0 ≤ v ∧ v < cfgSamplers.CpuUsageUpperBound)
       ∧ (∃ v, totalHeapSizeCallback cfgSamplers 3 = some v
        ∧ 0 ≤ v ∧ v < cfgSamplers.TotalHeapSizeUpperBound)) :=
  ⟨by decide, c7_sampler_bounds cfgSamplers 7 3 (by decide) (by decide)⟩

/-- Claim C8: every value `UpdateTotalBytesSent` adds to the bytes-sent
counter lies in [0, 1024), and every value `UpdateLatencyTime` records into
the latency distribution lies in [0, 512). -/
theorem c8_request_sample_bounds (r1 r2 : Int) :
    (∃ v, updateTotalBytesSentValue r1 = some v ∧ 0 ≤ v ∧ v < 1024)
    ∧ (∃ v, updateLatencyTimeValue r2 = some v ∧ 0 ≤ v ∧ v < 512) := by
  constructor
  · refine ⟨r1 % 1024, ?_, ?_, ?_⟩
    · simp [updateTotalBytesSentValue, randIntn]
    · exact Int.emod_nonneg r1 (by norm_num)
    · exact Int.emod_lt_of_pos r1 (by norm_num)
  · refine ⟨r2 % 512, ?_, ?_, ?_⟩
    · simp [updateLatencyTimeValue, randIntn]
    · exact Int.emod_nonneg r2 (by norm_num)
    · exact Int.emod_lt_of_pos r2 (by norm_num)

/-- Claim C9: the request counter is monotone over any realizable operation
sequence run from the fresh collector — the `GetApiRequest` value after a
longer prefix is at least the value after a shorter one — and a read
(`getApiRequest`) leaves the state unchanged, so two consecutive reads with
no intervening `addApiRequest` return the same value. -/
theorem c9_counter_monotone (ops : List RqmcOp) (k : Nat)
    (s : RequestBasedMetricCollector) (h : ops.length < 2 ^ 63) :
    GetApiRequest (runOps NewRequestBasedMetricCollector (ops.take k))
      ≤ GetApiRequest (runOps NewRequestBasedMetricCollector (ops.take (k + 1)))
    ∧ GetApiRequest (applyOp s RqmcOp.getApiRequest) = GetApiRequest s := by
  constructor
  · have h0 : (0 : Int) ≤ NewRequestBasedMetricCollector.counter := by
      simp [NewRequestBasedMetricCollector]
    have hbound : ∀ j : Nat,
        NewRequestBasedMetricCollector.counter
          + (countAdds (ops.take j) : Int) < 2 ^ 63 := by
      intro j
      have hle := countAdds_take_le ops j
      have hlen := countAdds_le_length ops
      simp only [NewRequestBasedMetricCollector]
      push_cast
      omega
    have hk := runOps_counter (ops.take k) NewRequestBasedMetricCollector h0 (hbound k)
    have hk1 := runOps_counter (ops.take (k + 1)) NewRequestBasedMetricCollector h0
      (hbound (k + 1))
    show (runOps NewRequestBasedMetricCollector (ops.take k)).counter
      ≤ (runOps NewRequestBasedMetricCollector (ops.take (k + 1))).counter
    rw [hk, hk1]
    have hmono := countAdds_take_mono ops k
    omega
  · rfl

/-- Witness for `c9_counter_monotone` on the run [add, read, add] at k = 1. -/
theorem c9_counter_monotone_witness :
    ([RqmcOp.addApiRequest, RqmcOp.getApiRequest,
        RqmcOp.addApiRequest] : List RqmcOp).length < 2 ^ 63
    ∧ (GetApiRequest (runOps NewRequestBasedMetricCollector
        ([RqmcOp.addApiRequest, RqmcOp.getApiRequest,
          RqmcOp.addApiRequest].take 1))
      ≤ GetApiRequest (runOps NewRequestBasedMetricCollector
        ([RqmcOp.addApiRequest, RqmcOp.getApiRequest,
          RqmcOp.addApiRequest].take 2))
      ∧ GetApiRequest (applyOp NewRequestBasedMetricCollector RqmcOp.getApiRequest)
        = GetApiRequest NewRequestBasedMetricCollector) :=
  ⟨by decide,
    c9_counter_monotone [RqmcOp.addApiRequest, RqmcOp.getApiRequest,
      RqmcOp.addApiRequest] 1 NewRequestBasedMetricCollector (by decide)⟩

/-- Claim C10: the observer callbacks registered by `updateCpuUsage` and
`updateTotalHeapSize` reach the panic branch of `rand.Intn` exactly when the
configured upper bound is ≤ 0, and produce a value (are total) exactly when
the upper bound is at least 1. -/
theorem c10_sampler_totality (cfg : Config) (r : Int) :
    (cpuUsageCallback cfg r = none ↔ cfg.CpuUsageUpperBound ≤ 0)
    ∧ ((cpuUsageCallback cfg r).isSome = true ↔ 1 ≤ cfg.CpuUsageUpperBound)
    ∧ (totalHeapSizeCallback cfg r = none ↔ cfg.TotalHeapSizeUpperBound ≤ 0)
    ∧ ((totalHeapSizeCallback cfg r).isSome = true
        ↔ 1 ≤ cfg.TotalHeapSizeUpperBound) := by
  by_cases h1 : cfg.CpuUsageUpperBound ≤ 0 <;>
    by_cases h2 : cfg.TotalHeapSizeUpperBound ≤ 0 <;>
    simp [cpuUsageCallback, totalHeapSizeCallback, randIntn, h1, h2] <;>
    omega

end GoSampleApp
